import Mathlib

/-!
Verification of the change-audit recorder in `internal/database/audit.go`.

The development shallowly embeds the audit plugin's hook functions
(`auditCreate`, `auditBeforeUpdate`, `auditUpdate`, `auditBeforeDelete`,
`auditDelete`) and their helpers (`getTableName`, `getRecordID`,
`serializeModel`, `modelToMap`, `getUserID`, `getIP`, `SetAuditContext`).

Go runtime values reachable by the plugin's reflection are modelled by the
inductive `GoV`; the GORM statement state by `Statement`/`DB`; the ambient
`context.Context` by an association list of typed keys; and the database
reads performed by the hooks (`First`, `Unscoped().First`) plus the final
audit-row insert by the abstract `Store`.  Each hook is a pure function
from the statement state and the store to the possibly-updated statement
state and the audit row it hands to the audit insert (if any).
-/

namespace GoWeb

/-- A Go value as seen through `reflect` by the audit plugin: pointers
(possibly nil), structs as ordered lists of (field name, exported?, value),
slices, unsigned and signed integers, strings, booleans, and a catch-all
for values the plugin never inspects (times, maps, ...), carrying their
JSON-marshalled form. -/
inductive GoV where
  | ptrV    (v : Option GoV)
  | structV (fields : List (String × Bool × GoV))
  | sliceV  (elems : List GoV)
  | uintV   (n : Nat)
  | intV    (z : Int)
  | strV    (s : String)
  | boolV   (b : Bool)
  | otherV  (tag : String)
  deriving Repr

/-- Keys used with `context.WithValue` by the audit plugin (custom struct
key types in the source), plus foreign keys used by other code. -/
inductive CtxKey where
  | auditUserIDKey
  | auditIPKey
  | auditOldValuesKey
  | otherKey (tag : String)
  deriving Repr, DecidableEq

/-- Values stored in a context, with their Go dynamic type recorded so that
the type assertions in `getUserID` / `getIP` can be modelled. -/
inductive CtxVal where
  | uintV (n : Nat)
  | uint64V (n : Nat)
  | intV (z : Int)
  | strV (s : String)
  | otherV (tag : String)
  deriving Repr, DecidableEq

/-- `context.Context`: `WithValue` conses, `Value` finds the most recent
binding of a key. -/
abbrev Ctx := List (CtxKey × CtxVal)

/-- `ctx.Value(k)`: most recently attached value under `k`. -/
def ctxValue (c : Ctx) (k : CtxKey) : Option CtxVal :=
  (c.find? (fun p => decide (p.1 = k))).map (fun p => p.2)

/-- The slice of `gorm.Schema` the plugin reads: `Schema.Table` and
`Schema.PrioritizedPrimaryField` (by its field name; `none` when the
schema has no prioritized primary field). -/
structure Schema where
  table : String
  primaryFieldName : Option String
  deriving Repr, DecidableEq

/-- The slice of `gorm.Statement` the plugin reads: parsed schema (if any),
the explicitly set table name, `Dest` (`none` models a nil interface),
the bound SQL variables `Vars`, and the ambient context (`none` models a
nil context). -/
structure Statement where
  schema : Option Schema
  table : String
  dest : Option GoV
  vars : List GoV
  context : Option Ctx
  deriving Repr

/-- The slice of `gorm.DB` the hooks touch: the statement and `db.Error`. -/
structure DB where
  stmt : Statement
  error : Option String
  deriving Repr

/-- One row of the `audit_logs` table as built by the hooks (`ID` and
`CreatedAt` are database-assigned and omitted). -/
structure AuditLog where
  modelTableName : String
  recordID : Nat
  action : String
  oldValues : String
  newValues : String
  userID : Nat
  ip : String
  deriving Repr, DecidableEq

/-- The database as the audit plugin sees it for one statement: `first i`
is the record returned by `db.Session(NewDB).First(oldModel, i)` for the
statement's model type (`none` on error, e.g. not found);
`firstUnscoped i` likewise for `Unscoped().First`; `auditInsertErr` is
the error result of the final `Create(&auditLog)`, which the hooks
discard. -/
structure Store where
  first : Nat → Option GoV
  firstUnscoped : Nat → Option GoV
  auditInsertErr : Option String

/-- Result of running one hook: the (possibly context-updated) db state,
and the audit row handed to the audit-log insert, if any. -/
structure HookOut where
  db : DB
  entry : Option AuditLog
  deriving Repr

/-! ## JSON encoding (the fragment of `encoding/json.Marshal` the plugin
exercises on the maps built by `modelToMap`) -/

/-- Escape a string for JSON (quote and backslash; other escapes do not
occur in the claims). -/
def jsonEscape (s : String) : String :=
  s.data.foldl (fun acc c =>
    if c = '\"' then acc ++ "\\\""
    else if c = '\\' then acc ++ "\\\\"
    else acc ++ String.singleton c) ""

/-- A JSON string literal. -/
def qstr (s : String) : String := "\"" ++ jsonEscape s ++ "\""

mutual

/-- `json.Marshal` of a value stored in the map: numbers, strings, bools,
pointers (dereferenced, nil to null), nested structs over their exported
fields (json struct tags are not modelled; no claim inspects nested
composite content), slices, and opaque values by their tag. -/
def encGoV : GoV → String
  | .uintV n => toString n
  | .intV z => toString z
  | .strV s => qstr s
  | .boolV b => cond b "true" "false"
  | .ptrV none => "null"
  | .ptrV (some v) => encGoV v
  | .structV fs => "\x7b" ++ encStructFields fs true ++ "\x7d"
  | .sliceV xs => "[" ++ encElems xs true ++ "]"
  | .otherV tag => tag

/-- Encode slice elements, comma-separated (`isFirst` tracks whether a
comma is due). -/
def encElems : List GoV → Bool → String
  | [], _ => ""
  | x :: rest, isFirst =>
    (cond isFirst "" ",") ++ encGoV x ++ encElems rest false

/-- Encode a nested struct's exported fields, comma-separated. -/
def encStructFields : List (String × Bool × GoV) → Bool → String
  | [], _ => ""
  | f :: rest, isFirst =>
    if f.2.1 then
      (cond isFirst "" ",") ++ qstr f.1 ++ ":" ++ encGoV f.2.2 ++
        encStructFields rest false
    else
      encStructFields rest isFirst

end

/-- Insert a pair into a sorted association list by key (Go's
`json.Marshal` emits map keys in sorted order). -/
def insertSorted (p : String × GoV) : List (String × GoV) → List (String × GoV)
  | [] => [p]
  | q :: rest =>
    if compare p.1 q.1 = Ordering.lt then p :: q :: rest
    else q :: insertSorted p rest

/-- Sort an association list by key. -/
def sortPairs (m : List (String × GoV)) : List (String × GoV) :=
  m.foldr insertSorted []

/-- Encode a list of key/value pairs as the body of a JSON object. -/
def encPairsTop : List (String × GoV) → String
  | [] => ""
  | [p] => qstr p.1 ++ ":" ++ encGoV p.2
  | p :: q :: rest => qstr p.1 ++ ":" ++ encGoV p.2 ++ "," ++ encPairsTop (q :: rest)

/-- `json.Marshal` of a `map[string]interface` value: keys sorted. -/
def encMap (m : List (String × GoV)) : String :=
  "\x7b" ++ encPairsTop (sortPairs m) ++ "\x7d"

/-- `json.Marshal` of a non-nil slice of maps. -/
def encMapList (ms : List (List (String × GoV))) : String :=
  "[" ++ String.intercalate "," (ms.map encMap) ++ "]"

/-! ## `modelToMap` and `serializeModel` -/

/-- The value stored into the map for one struct field: a pointer field is
dereferenced once, a nil pointer field is stored as Go nil (which
marshals to null; represented by `ptrV none`), any other value is stored
as is (lines 521-530 of audit.go). -/
def derefField : GoV → GoV
  | .ptrV none => .ptrV none
  | .ptrV (some w) => w
  | w => w

/-- Whether one field contributes a map entry, and which: unexported
fields and fields named Password or DeletedAt are skipped
(lines 503-516 of audit.go). -/
def fieldEntry (f : String × Bool × GoV) : Option (String × GoV) :=
  if f.2.1 = false then none
  else if f.1 = "Password" then none
  else if f.1 = "DeletedAt" then none
  else some (f.1, derefField f.2.2)

/-- Go map assignment `data[k] = v`: overwrite the binding if the key is
present, otherwise add it. -/
def mapInsert (m : List (String × GoV)) (k : String) (v : GoV) :
    List (String × GoV) :=
  if m.any (fun p => decide (p.1 = k)) then
    m.map (fun p => if p.1 = k then (k, v) else p)
  else m ++ [(k, v)]

/-- The map built by `modelToMap`'s field loop over a struct's fields. -/
def modelMapOf (fields : List (String × Bool × GoV)) : List (String × GoV) :=
  fields.foldl (fun data f =>
    match fieldEntry f with
    | none => data
    | some (k, v) => mapInsert data k v) []

/-- `modelToMap` applied to the (already pointer-stripped) value: a struct
yields its filtered field map, anything else is the
"model is not a struct" error (lines 494-496 of audit.go). -/
def structToMap : GoV → Except String (List (String × GoV))
  | .structV fields => .ok (modelMapOf fields)
  | _ => .error "model is not a struct"

/-- `modelToMap` (lines 484-534 of audit.go): dereference one pointer
level (a nil pointer yields the empty map with no error), then require a
struct and fold over its fields. -/
def modelToMap (model : GoV) : Except String (List (String × GoV)) :=
  match model with
  | .ptrV none => .ok []
  | .ptrV (some v) => structToMap v
  | v => structToMap v

/-- `modelToMap` result as an option (the slice branch of `serializeModel`
keeps only elements whose conversion returned no error). -/
def modelMapTry (v : GoV) : Option (List (String × GoV)) :=
  match modelToMap v with
  | .ok m => some m
  | .error _ => none

/-- `serializeModel` (lines 444-481 of audit.go): nil interface or nil
pointer serialize to the empty string; a slice serializes the elements
that convert successfully (Go marshals the nil result slice as null when
no element converts); any other value goes through `modelToMap`, with a
conversion failure degrading to the empty string. -/
def serializeModel (model : Option GoV) : String :=
  match model with
  | none => ""
  | some orig =>
    let derefd : Option GoV :=
      match orig with
      | .ptrV none => none
      | .ptrV (some v) => some v
      | v => some v
    match derefd with
    | none => ""
    | some (.sliceV xs) =>
      let results := xs.filterMap modelMapTry
      if results.isEmpty then "null" else encMapList results
    | some _ =>
      match modelToMap orig with
      | .ok data => encMap data
      | .error _ => ""

/-! ## Table-name and record-id resolution -/

/-- `getTableName` (lines 335-343 of audit.go): the parsed schema's table
if a schema is present, else the explicitly set statement table, else
empty. -/
def getTableName (st : Statement) : String :=
  match st.schema with
  | some sch => sch.table
  | none => if st.table ≠ "" then st.table else ""

/-- `extractIDFromValue` (lines 349-361 of audit.go): a positive unsigned
or signed integer value, else 0. -/
def extractIDFromValue : GoV → Nat
  | .uintV n => if 0 < n then n else 0
  | .intV z => if 0 < z then z.toNat else 0
  | _ => 0

/-- The pointer-dereferencing loop of `getRecordID`'s Vars scan
(lines 393-398 of audit.go): follow pointers until a non-pointer or a nil
pointer is reached (a nil pointer is left in place and extracts to 0). -/
def derefAll : GoV → GoV
  | .ptrV (some v) => derefAll v
  | v => v

/-- Step 1 of `getRecordID` (lines 364-383 of audit.go): the schema's
prioritized primary-key field read off `Dest` (dereferencing one pointer
level; a nil `Dest` pointer gives an invalid value), extracted as a
positive integer. -/
def pkFromDest (st : Statement) : Nat :=
  match st.schema with
  | none => 0
  | some sch =>
    match sch.primaryFieldName with
    | none => 0
    | some pf =>
      match st.dest with
      | none => 0
      | some d =>
        match (match d with
               | .ptrV none => none
               | .ptrV (some v) => some v
               | v => some v : Option GoV) with
        | some (.structV fields) =>
          match fields.find? (fun f => decide (f.1 = pf)) with
          | some f => extractIDFromValue f.2.2
          | none => 0
        | _ => 0

/-- Step 2 of `getRecordID` (lines 387-419 of audit.go): scan the bound
statement variables, returning the first that dereferences to a positive
integer.  (The trailing direct type assertions of the source are subsumed:
any value they would accept is already accepted by the reflection path.) -/
def idFromVars : List GoV → Nat
  | [] => 0
  | v :: rest =>
    if 0 < extractIDFromValue (derefAll v) then extractIDFromValue (derefAll v)
    else idFromVars rest

/-- Step 3 of `getRecordID` (lines 422-438 of audit.go): the field
literally named ID on `Dest` (one pointer dereference; a nil pointer
returns 0), extracted as a positive integer. -/
def idFromDestIDField (st : Statement) : Nat :=
  match st.dest with
  | none => 0
  | some d =>
    match (match d with
           | .ptrV none => none
           | .ptrV (some v) => some v
           | v => some v : Option GoV) with
    | some (.structV fields) =>
      match fields.find? (fun f => decide (f.1 = "ID")) with
      | some f => extractIDFromValue f.2.2
      | none => 0
    | _ => 0

/-- `getRecordID` (lines 347-441 of audit.go): schema primary key off the
record, else first positive bound variable, else the ID field off the
record, else 0. -/
def getRecordID (st : Statement) : Nat :=
  let id1 := pkFromDest st
  if 0 < id1 then id1
  else
    let id2 := idFromVars st.vars
    if 0 < id2 then id2
    else idFromDestIDField st

/-! ## Context readers -/

/-- `getUserID` (lines 537-555 of audit.go): the context value under the
audit user-id key, accepted when its dynamic type is uint or uint64
(any value), or int (only when positive); 0 otherwise or when the
context is nil. -/
def getUserID (st : Statement) : Nat :=
  match st.context with
  | none => 0
  | some c =>
    match ctxValue c CtxKey.auditUserIDKey with
    | some (.uintV n) => n
    | some (.uint64V n) => n
    | some (.intV z) => if 0 < z then z.toNat else 0
    | _ => 0

/-- `getIP` (lines 558-568 of audit.go): the context value under the audit
IP key when it is a string; empty otherwise or when the context is nil. -/
def getIP (st : Statement) : String :=
  match st.context with
  | none => ""
  | some c =>
    match ctxValue c CtxKey.auditIPKey with
    | some (.strV s) => s
    | _ => ""

/-! ## The five hooks -/

/-- The recursion guard (first table check in every hook): the parsed
schema is present and its table is the audit table. -/
def isAuditTarget (st : Statement) : Bool :=
  match st.schema with
  | some sch => sch.table == "audit_logs"
  | none => false

/-- The staged prior state read back by the after-hooks (lines 194-199 and
299-304 of audit.go): the context string under the old-values key, empty
when the context is nil, the key is unbound, or the value is not a
string. -/
def stagedOld (st : Statement) : String :=
  match st.context with
  | none => ""
  | some c =>
    match ctxValue c CtxKey.auditOldValuesKey with
    | some (.strV s) => s
    | _ => ""

/-- The compatibility fallback of the after-hooks (lines 202-208 and
307-313 of audit.go): when a schema is present, a best-effort
`Unscoped().First` reload by record id, serialized; empty when the reload
fails or no schema is present. -/
def fallbackOld (store : Store) (st : Statement) : String :=
  match st.schema with
  | none => ""
  | some _ =>
    match store.firstUnscoped (getRecordID st) with
    | some oldModel => serializeModel (some (.ptrV (some oldModel)))
    | none => ""

/-- The body shared by `auditBeforeUpdate` and `auditBeforeDelete` after
their guards (lines 145-166 and 250-271 of audit.go): when a schema is
present and the pre-write `First` load succeeds, serialize the loaded
record and attach it to the statement context under the old-values key
(creating a fresh context when the statement context is nil); otherwise
leave the db state untouched. -/
def stageOldValues (db : DB) (store : Store) : DB :=
  match db.stmt.schema with
  | none => db
  | some _ =>
    match store.first (getRecordID db.stmt) with
    | none => db
    | some oldModel =>
      let oldValues := serializeModel (some (.ptrV (some oldModel)))
      let baseCtx : Ctx := (db.stmt.context).getD []
      { db with stmt := { db.stmt with
          context := some ((CtxKey.auditOldValuesKey, CtxVal.strV oldValues) :: baseCtx) } }

/-- `auditCreate` (lines 82-124 of audit.go).  The store parameter is
deliberately unread: the hook performs no database read, and the error of
its audit-row insert (`Store.auditInsertErr`) is discarded. -/
def auditCreate (db : DB) (_store : Store) : HookOut :=
  if db.error.isSome then ⟨db, none⟩
  else if isAuditTarget db.stmt then ⟨db, none⟩
  else if getTableName db.stmt = "" then ⟨db, none⟩
  else if getRecordID db.stmt = 0 then ⟨db, none⟩
  else ⟨db, some ⟨getTableName db.stmt, getRecordID db.stmt, "create", "",
                  serializeModel db.stmt.dest,
                  getUserID db.stmt, getIP db.stmt⟩⟩

/-- `auditBeforeUpdate` (lines 127-167 of audit.go).  Note it performs no
`db.Error` check. -/
def auditBeforeUpdate (db : DB) (store : Store) : HookOut :=
  if isAuditTarget db.stmt then ⟨db, none⟩
  else if getTableName db.stmt = "" then ⟨db, none⟩
  else if getRecordID db.stmt = 0 then ⟨db, none⟩
  else ⟨stageOldValues db store, none⟩

/-- `auditUpdate` (lines 170-229 of audit.go). -/
def auditUpdate (db : DB) (store : Store) : HookOut :=
  if db.error.isSome then ⟨db, none⟩
  else if isAuditTarget db.stmt then ⟨db, none⟩
  else if getTableName db.stmt = "" then ⟨db, none⟩
  else if getRecordID db.stmt = 0 then ⟨db, none⟩
  else ⟨db, some ⟨getTableName db.stmt, getRecordID db.stmt, "update",
                  (if stagedOld db.stmt = "" then fallbackOld store db.stmt
                   else stagedOld db.stmt),
                  serializeModel db.stmt.dest,
                  getUserID db.stmt, getIP db.stmt⟩⟩

/-- `auditBeforeDelete` (lines 232-272 of audit.go): identical in shape to
`auditBeforeUpdate`. -/
def auditBeforeDelete (db : DB) (store : Store) : HookOut :=
  if isAuditTarget db.stmt then ⟨db, none⟩
  else if getTableName db.stmt = "" then ⟨db, none⟩
  else if getRecordID db.stmt = 0 then ⟨db, none⟩
  else ⟨stageOldValues db store, none⟩

/-- `auditDelete` (lines 275-332 of audit.go). -/
def auditDelete (db : DB) (store : Store) : HookOut :=
  if db.error.isSome then ⟨db, none⟩
  else if isAuditTarget db.stmt then ⟨db, none⟩
  else if getTableName db.stmt = "" then ⟨db, none⟩
  else if getRecordID db.stmt = 0 then ⟨db, none⟩
  else ⟨db, some ⟨getTableName db.stmt, getRecordID db.stmt, "delete",
                  (if stagedOld db.stmt = "" then fallbackOld store db.stmt
                   else stagedOld db.stmt), "",
                  getUserID db.stmt, getIP db.stmt⟩⟩

/-- `SetAuditContext` (lines 578-582 of audit.go): returns its db argument
unchanged; the userID and ip arguments are unused. -/
def SetAuditContext (db : DB) (_userID : Nat) (_ip : String) : DB := db

/-! ## Projections and auxiliary predicates used by the statements -/

/-- The prior-state column of a possibly-absent audit row (empty when no
row was produced). -/
def entryOld : Option AuditLog → String
  | none => ""
  | some a => a.oldValues

/-- The new-state column of a possibly-absent audit row. -/
def entryNew : Option AuditLog → String
  | none => ""
  | some a => a.newValues

/-- The action column of a possibly-absent audit row. -/
def entryAction : Option AuditLog → String
  | none => ""
  | some a => a.action

/-- The user-id column of a possibly-absent audit row. -/
def entryUser : Option AuditLog → Nat
  | none => 0
  | some a => a.userID

/-- The client-IP column of a possibly-absent audit row. -/
def entryIP : Option AuditLog → String
  | none => ""
  | some a => a.ip

/-- Whether a Go value is a struct. -/
def isStructGo : GoV → Bool
  | .structV _ => true
  | _ => false

/-- The audit rows attempted by all five hooks on one db state. -/
def allHookEntries (db : DB) (store : Store) : List (Option AuditLog) :=
  [(auditCreate db store).entry, (auditBeforeUpdate db store).entry,
   (auditUpdate db store).entry, (auditBeforeDelete db store).entry,
   (auditDelete db store).entry]

/-! ## Spec-side record-id candidates

These three definitions follow the words of the specification's resolution
policy (spec section 4.1), to be compared with `getRecordID`, which is
translated from the source. -/

/-- The value of a positive numeric Go value, else 0 (spec: "if its value
is a positive number"). -/
def posNum : Option GoV → Nat
  | some (.uintV n) => if 0 < n then n else 0
  | some (.intV z) => if 0 < z then z.toNat else 0
  | _ => 0

/-- The in-memory record object of the statement: `Dest` with one pointer
level stripped (absent when `Dest` is absent or a nil pointer). -/
def specRecordObj (st : Statement) : Option GoV :=
  match st.dest with
  | none => none
  | some (.ptrV none) => none
  | some (.ptrV (some v)) => some v
  | some v => some v

/-- A named field read off a record object (absent on non-structs). -/
def specFieldVal (obj : GoV) (name : String) : Option GoV :=
  match obj with
  | .structV fields =>
    (fields.find? (fun f => decide (f.1 = name))).map (fun f => f.2.2)
  | _ => none

/-- Spec rule 1: "the persistence schema's declared primary-key field read
off the in-memory record object, if its value is a positive number". -/
def specPrimaryCand (st : Statement) : Nat :=
  match st.schema with
  | none => 0
  | some sch =>
    match sch.primaryFieldName with
    | none => 0
    | some pf =>
      match specRecordObj st with
      | none => 0
      | some obj => posNum (specFieldVal obj pf)

/-- Spec rule 2: "a positive numeric value found among the statement's
bound parameter values" (first such value). -/
def specVarsCand (st : Statement) : Nat :=
  ((st.vars.map (fun v => extractIDFromValue (derefAll v))).find?
    (fun n => decide (0 < n))).getD 0

/-- Spec rule 3: "a field literally named ID on the in-memory record
object, if positive". -/
def specIDFieldCand (st : Statement) : Nat :=
  match specRecordObj st with
  | none => 0
  | some obj => posNum (specFieldVal obj "ID")

/-! ## Concrete fixtures used by witnesses and the counterexample -/

/-- A concrete user record: positive primary key, one ordinary field, a
Password field, a soft-deletion marker, an unexported field, and a nil
pointer field. -/
def userRec : GoV := .structV
  [("ID", true, .uintV 7), ("Name", true, .strV "A"),
   ("Password", true, .strV "secret"), ("DeletedAt", true, .otherV "null"),
   ("age", false, .intV 30), ("Nick", true, .ptrV none)]

/-- The users schema with prioritized primary field ID. -/
def usersSchema : Schema := ⟨"users", some "ID"⟩

/-- A statement writing `userRec` through the users schema. -/
def userStmt : Statement := ⟨some usersSchema, "", some (.ptrV (some userRec)), [], none⟩

/-- The db state for `userStmt` with no statement error. -/
def userDB : DB := ⟨userStmt, none⟩

/-- A store on which every read fails. -/
def emptyStore : Store := ⟨fun _ => none, fun _ => none, none⟩

/-- A store holding `userRec` at id 7 (scoped reads only). -/
def userStore : Store := ⟨fun i => if i = 7 then some userRec else none, fun _ => none, none⟩

/-- A raw-table statement targeting the audit table with no parsed schema
(for example `db.Table("audit_logs").Where("id = ?", 5).Update(...)`):
the bound variables carry the id 5. -/
def rawAuditStmt : Statement := ⟨none, "audit_logs", none, [.uintV 5], none⟩

/-- The db state for `rawAuditStmt` with no statement error. -/
def rawAuditDB : DB := ⟨rawAuditStmt, none⟩

/-- A context carrying a staged prior state plus user id and IP under the
audit keys. -/
def stagedCtx : Ctx :=
  [(CtxKey.auditOldValuesKey, CtxVal.strV "PRIOR"),
   (CtxKey.auditUserIDKey, CtxVal.uintV 9),
   (CtxKey.auditIPKey, CtxVal.strV "1.2.3.4")]

/-- The db state of an update of `userRec` whose before-hook staged
"PRIOR". -/
def stagedDB : DB := ⟨{ userStmt with context := some stagedCtx }, none⟩

/-- A context carrying no audit keys at all. -/
def noKeysCtx : Ctx := [(CtxKey.otherKey "requestID", CtxVal.strV "x")]

/-- The db state of a write whose context carries no audit keys. -/
def noKeysDB : DB := ⟨{ userStmt with context := some noKeysCtx }, none⟩

/-- A context carrying a non-positive int user id under the audit user-id
key. -/
def negIntCtx : Ctx := [(CtxKey.auditUserIDKey, CtxVal.intV (-3))]

/-- The db state of a write whose context carries a non-positive int user
id. -/
def negIntDB : DB := ⟨{ userStmt with context := some negIntCtx }, none⟩

/-- A write whose parsed schema targets the audit table itself. -/
def auditSelfDB : DB := ⟨⟨some ⟨"audit_logs", some "ID"⟩, "", none, [], none⟩, none⟩

/-- A statement whose record id is unresolvable: resolvable table but nil
`Dest` and no bound variables. -/
def noIDStmt : Statement := ⟨some usersSchema, "", none, [], none⟩

/-- The db state for `noIDStmt` with no statement error. -/
def noIDDB : DB := ⟨noIDStmt, none⟩

/-! ## Concrete evaluations (sanity checks of the embedding) -/

theorem userRec_serialization_eval : serializeModel (some (.ptrV (some userRec)))
    = "\x7b\"ID\":7,\"Name\":\"A\",\"Nick\":null\x7d" := rfl

theorem userStmt_record_id_eval : getRecordID userStmt = 7 := rfl

theorem userDB_create_eval : (auditCreate userDB emptyStore).entry
    = some ⟨"users", 7, "create", "",
            "\x7b\"ID\":7,\"Name\":\"A\",\"Nick\":null\x7d", 0, ""⟩ := rfl

theorem userDB_stage_eval : (auditBeforeDelete userDB userStore).db.stmt.context
    = some [(CtxKey.auditOldValuesKey,
             CtxVal.strV "\x7b\"ID\":7,\"Name\":\"A\",\"Nick\":null\x7d")] := rfl

/-! ## Helper lemmas -/

theorem auditCreate_db_eq (db : DB) (s : Store) : (auditCreate db s).db = db := by
  unfold auditCreate
  repeat first | rfl | split

theorem auditUpdate_db_eq (db : DB) (s : Store) : (auditUpdate db s).db = db := by
  unfold auditUpdate
  repeat first | rfl | split

theorem auditDelete_db_eq (db : DB) (s : Store) : (auditDelete db s).db = db := by
  unfold auditDelete
  repeat first | rfl | split

theorem stageOldValues_error (db : DB) (s : Store) :
    (stageOldValues db s).error = db.error := by
  unfold stageOldValues
  repeat first | rfl | split

theorem auditBeforeUpdate_error (db : DB) (s : Store) :
    (auditBeforeUpdate db s).db.error = db.error := by
  unfold auditBeforeUpdate
  repeat first | rfl | split | exact stageOldValues_error db s

theorem auditBeforeDelete_error (db : DB) (s : Store) :
    (auditBeforeDelete db s).db.error = db.error := by
  unfold auditBeforeDelete
  repeat first | rfl | split | exact stageOldValues_error db s

theorem auditBeforeUpdate_entry (db : DB) (s : Store) :
    (auditBeforeUpdate db s).entry = none := by
  unfold auditBeforeUpdate
  repeat first | rfl | split

theorem auditBeforeDelete_entry (db : DB) (s : Store) :
    (auditBeforeDelete db s).entry = none := by
  unfold auditBeforeDelete
  repeat first | rfl | split

theorem stageOldValues_fail (db : DB) (s : Store)
    (h : s.first (getRecordID db.stmt) = none) : stageOldValues db s = db := by
  unfold stageOldValues
  split
  · rfl
  · split
    · rfl
    · simp_all

theorem stageOldValues_some (db : DB) (s : Store) (sch : Schema) (rec : GoV)
    (h1 : db.stmt.schema = some sch)
    (h2 : s.first (getRecordID db.stmt) = some rec) :
    stageOldValues db s = { db with stmt := { db.stmt with
      context := some ((CtxKey.auditOldValuesKey,
        CtxVal.strV (serializeModel (some (.ptrV (some rec)))))
          :: (db.stmt.context.getD [])) } } := by
  unfold stageOldValues
  split
  · simp_all
  · split
    · simp_all
    · simp_all

theorem ctxValue_old_user (v : CtxVal) (c : Ctx) :
    ctxValue ((CtxKey.auditOldValuesKey, v) :: c) CtxKey.auditUserIDKey
      = ctxValue c CtxKey.auditUserIDKey := rfl

theorem ctxValue_old_ip (v : CtxVal) (c : Ctx) :
    ctxValue ((CtxKey.auditOldValuesKey, v) :: c) CtxKey.auditIPKey
      = ctxValue c CtxKey.auditIPKey := rfl

theorem ctxValue_old_self (v : CtxVal) (c : Ctx) :
    ctxValue ((CtxKey.auditOldValuesKey, v) :: c) CtxKey.auditOldValuesKey
      = some v := rfl

theorem stagedOld_staged (st : Statement) (s' : String) :
    stagedOld { st with context := some ((CtxKey.auditOldValuesKey,
      CtxVal.strV s') :: st.context.getD []) } = s' := by
  cases st.context <;> rfl

theorem getUserID_staged (st : Statement) (s' : String) :
    getUserID { st with context := some ((CtxKey.auditOldValuesKey,
      CtxVal.strV s') :: st.context.getD []) } = getUserID st := by
  cases hc : st.context <;> (unfold getUserID; rw [hc]; exact rfl)

theorem getIP_staged (st : Statement) (s' : String) :
    getIP { st with context := some ((CtxKey.auditOldValuesKey,
      CtxVal.strV s') :: st.context.getD []) } = getIP st := by
  cases hc : st.context <;> (unfold getIP; rw [hc]; exact rfl)

theorem getTableName_ctx (st : Statement) (c' : Option Ctx) :
    getTableName { st with context := c' } = getTableName st := rfl

theorem getRecordID_ctx (st : Statement) (c' : Option Ctx) :
    getRecordID { st with context := c' } = getRecordID st := rfl

theorem isAuditTarget_ctx (st : Statement) (c' : Option Ctx) :
    isAuditTarget { st with context := c' } = isAuditTarget st := rfl

theorem fallbackOld_ctx (s : Store) (st : Statement) (c' : Option Ctx) :
    fallbackOld s { st with context := c' } = fallbackOld s st := rfl

theorem auditCreate_skip (db : DB) (s : Store)
    (h : getTableName db.stmt = "" ∨ getRecordID db.stmt = 0) :
    auditCreate db s = ⟨db, none⟩ := by
  unfold auditCreate
  repeat first | rfl | (rcases h with h | h <;> simp_all) | split

theorem auditUpdate_skip (db : DB) (s : Store)
    (h : getTableName db.stmt = "" ∨ getRecordID db.stmt = 0) :
    auditUpdate db s = ⟨db, none⟩ := by
  unfold auditUpdate
  repeat first | rfl | (rcases h with h | h <;> simp_all) | split

theorem auditDelete_skip (db : DB) (s : Store)
    (h : getTableName db.stmt = "" ∨ getRecordID db.stmt = 0) :
    auditDelete db s = ⟨db, none⟩ := by
  unfold auditDelete
  repeat first | rfl | (rcases h with h | h <;> simp_all) | split

theorem auditBeforeUpdate_skip (db : DB) (s : Store)
    (h : getTableName db.stmt = "" ∨ getRecordID db.stmt = 0) :
    auditBeforeUpdate db s = ⟨db, none⟩ := by
  unfold auditBeforeUpdate
  repeat first | rfl | (rcases h with h | h <;> simp_all) | split

theorem auditBeforeDelete_skip (db : DB) (s : Store)
    (h : getTableName db.stmt = "" ∨ getRecordID db.stmt = 0) :
    auditBeforeDelete db s = ⟨db, none⟩ := by
  unfold auditBeforeDelete
  repeat first | rfl | (rcases h with h | h <;> simp_all) | split

theorem auditCreate_guard (db : DB) (s : Store)
    (h : isAuditTarget db.stmt = true) : auditCreate db s = ⟨db, none⟩ := by
  unfold auditCreate
  repeat first | rfl | simp_all | split

theorem auditUpdate_guard (db : DB) (s : Store)
    (h : isAuditTarget db.stmt = true) : auditUpdate db s = ⟨db, none⟩ := by
  unfold auditUpdate
  repeat first | rfl | simp_all | split

theorem auditDelete_guard (db : DB) (s : Store)
    (h : isAuditTarget db.stmt = true) : auditDelete db s = ⟨db, none⟩ := by
  unfold auditDelete
  repeat first | rfl | simp_all | split

theorem auditBeforeUpdate_guard (db : DB) (s : Store)
    (h : isAuditTarget db.stmt = true) : auditBeforeUpdate db s = ⟨db, none⟩ := by
  unfold auditBeforeUpdate
  repeat first | rfl | simp_all | split

theorem auditBeforeDelete_guard (db : DB) (s : Store)
    (h : isAuditTarget db.stmt = true) : auditBeforeDelete db s = ⟨db, none⟩ := by
  unfold auditBeforeDelete
  repeat first | rfl | simp_all | split

theorem auditCreate_success (db : DB) (s : Store)
    (h1 : db.error = none) (h2 : isAuditTarget db.stmt = false)
    (h3 : getTableName db.stmt ≠ "") (h4 : getRecordID db.stmt ≠ 0) :
    auditCreate db s = ⟨db, some ⟨getTableName db.stmt, getRecordID db.stmt,
      "create", "", serializeModel db.stmt.dest,
      getUserID db.stmt, getIP db.stmt⟩⟩ := by
  unfold auditCreate
  simp [h1, h2, h3, h4]

theorem auditUpdate_success (db : DB) (s : Store)
    (h1 : db.error = none) (h2 : isAuditTarget db.stmt = false)
    (h3 : getTableName db.stmt ≠ "") (h4 : getRecordID db.stmt ≠ 0) :
    auditUpdate db s = ⟨db, some ⟨getTableName db.stmt, getRecordID db.stmt,
      "update",
      (if stagedOld db.stmt = "" then fallbackOld s db.stmt else stagedOld db.stmt),
      serializeModel db.stmt.dest, getUserID db.stmt, getIP db.stmt⟩⟩ := by
  unfold auditUpdate
  simp [h1, h2, h3, h4]

theorem auditDelete_success (db : DB) (s : Store)
    (h1 : db.error = none) (h2 : isAuditTarget db.stmt = false)
    (h3 : getTableName db.stmt ≠ "") (h4 : getRecordID db.stmt ≠ 0) :
    auditDelete db s = ⟨db, some ⟨getTableName db.stmt, getRecordID db.stmt,
      "delete",
      (if stagedOld db.stmt = "" then fallbackOld s db.stmt else stagedOld db.stmt),
      "", getUserID db.stmt, getIP db.stmt⟩⟩ := by
  unfold auditDelete
  simp [h1, h2, h3, h4]

theorem auditBeforeUpdate_success (db : DB) (s : Store)
    (h2 : isAuditTarget db.stmt = false)
    (h3 : getTableName db.stmt ≠ "") (h4 : getRecordID db.stmt ≠ 0) :
    auditBeforeUpdate db s = ⟨stageOldValues db s, none⟩ := by
  unfold auditBeforeUpdate
  simp [h2, h3, h4]

theorem auditBeforeDelete_success (db : DB) (s : Store)
    (h2 : isAuditTarget db.stmt = false)
    (h3 : getTableName db.stmt ≠ "") (h4 : getRecordID db.stmt ≠ 0) :
    auditBeforeDelete db s = ⟨stageOldValues db s, none⟩ := by
  unfold auditBeforeDelete
  simp [h2, h3, h4]

theorem auditCreate_store_irrel (db : DB) (s s' : Store) :
    auditCreate db s = auditCreate db s' := rfl

theorem auditUpdate_store_irrel (db : DB) (f f' : Nat → Option GoV)
    (g : Nat → Option GoV) (e e' : Option String) :
    auditUpdate db ⟨f, g, e⟩ = auditUpdate db ⟨f', g, e'⟩ := rfl

theorem auditDelete_store_irrel (db : DB) (f f' : Nat → Option GoV)
    (g : Nat → Option GoV) (e e' : Option String) :
    auditDelete db ⟨f, g, e⟩ = auditDelete db ⟨f', g, e'⟩ := rfl

theorem auditBeforeUpdate_store_irrel (db : DB) (f : Nat → Option GoV)
    (g g' : Nat → Option GoV) (e e' : Option String) :
    auditBeforeUpdate db ⟨f, g, e⟩ = auditBeforeUpdate db ⟨f, g', e'⟩ := rfl

theorem auditBeforeDelete_store_irrel (db : DB) (f : Nat → Option GoV)
    (g g' : Nat → Option GoV) (e e' : Option String) :
    auditBeforeDelete db ⟨f, g, e⟩ = auditBeforeDelete db ⟨f, g', e'⟩ := rfl

theorem serializeModel_struct (fs : List (String × Bool × GoV)) :
    serializeModel (some (.structV fs)) = encMap (modelMapOf fs) := rfl

theorem serializeModel_struct_ptr (fs : List (String × Bool × GoV)) :
    serializeModel (some (.ptrV (some (.structV fs)))) = encMap (modelMapOf fs) := rfl

theorem encMap_ne_empty (m : List (String × GoV)) : encMap m ≠ "" := by
  intro h
  have h2 := congrArg String.length h
  rw [encMap, String.length_append, String.length_append] at h2
  have hb : ("\x7b" : String).length = 1 := rfl
  have he : ("\x7d" : String).length = 1 := rfl
  have hz : ("" : String).length = 0 := rfl
  omega

theorem serializeModel_struct_ne (rec : GoV) (h : isStructGo rec = true) :
    serializeModel (some (.ptrV (some rec))) ≠ "" := by
  cases rec
  case structV fs => exact encMap_ne_empty (modelMapOf fs)
  all_goals simp [isStructGo] at h

theorem auditCreate_user_ip (db : DB) (s : Store) :
    (entryUser (auditCreate db s).entry = 0
      ∨ entryUser (auditCreate db s).entry = getUserID db.stmt)
    ∧ (entryIP (auditCreate db s).entry = ""
      ∨ entryIP (auditCreate db s).entry = getIP db.stmt) := by
  unfold auditCreate
  repeat' split
  all_goals first
    | exact ⟨Or.inl rfl, Or.inl rfl⟩
    | exact ⟨Or.inr rfl, Or.inr rfl⟩

theorem auditUpdate_user_ip (db : DB) (s : Store) :
    (entryUser (auditUpdate db s).entry = 0
      ∨ entryUser (auditUpdate db s).entry = getUserID db.stmt)
    ∧ (entryIP (auditUpdate db s).entry = ""
      ∨ entryIP (auditUpdate db s).entry = getIP db.stmt) := by
  unfold auditUpdate
  repeat' split
  all_goals first
    | exact ⟨Or.inl rfl, Or.inl rfl⟩
    | exact ⟨Or.inr rfl, Or.inr rfl⟩

theorem auditDelete_user_ip (db : DB) (s : Store) :
    (entryUser (auditDelete db s).entry = 0
      ∨ entryUser (auditDelete db s).entry = getUserID db.stmt)
    ∧ (entryIP (auditDelete db s).entry = ""
      ∨ entryIP (auditDelete db s).entry = getIP db.stmt) := by
  unfold auditDelete
  repeat' split
  all_goals first
    | exact ⟨Or.inl rfl, Or.inl rfl⟩
    | exact ⟨Or.inr rfl, Or.inr rfl⟩

theorem posNum_some (v : GoV) : posNum (some v) = extractIDFromValue v := by
  cases v <;> rfl

theorem posNum_none : posNum none = 0 := rfl

theorem pkFromDest_eq (st : Statement) : pkFromDest st = specPrimaryCand st := by
  rcases st with ⟨sch, tbl, dest, vars, ctx⟩
  cases sch with
  | none => rfl
  | some s0 =>
    rcases s0 with ⟨t0, pf0⟩
    cases pf0 with
    | none => rfl
    | some pf =>
      cases dest with
      | none => rfl
      | some d =>
        unfold pkFromDest specPrimaryCand specRecordObj specFieldVal
        cases d <;> try rfl
        case ptrV o =>
          cases o <;> try rfl
          case some v =>
            cases v <;> try rfl
            case structV fields =>
              cases hf : fields.find? (fun f => decide (f.1 = pf)) <;>
                simp [hf, posNum_some, posNum_none]
        case structV fields =>
          cases hf : fields.find? (fun f => decide (f.1 = pf)) <;>
            simp [hf, posNum_some, posNum_none]

theorem idFromVars_eq (xs : List GoV) :
    idFromVars xs =
      ((xs.map (fun v => extractIDFromValue (derefAll v))).find?
        (fun n => decide (0 < n))).getD 0 := by
  induction xs with
  | nil => rfl
  | cons v rest ih =>
    by_cases h : 0 < extractIDFromValue (derefAll v) <;>
      simp [idFromVars, List.find?, h, ih]

theorem idFromDestIDField_eq (st : Statement) :
    idFromDestIDField st = specIDFieldCand st := by
  rcases st with ⟨sch, tbl, dest, vars, ctx⟩
  cases dest with
  | none => rfl
  | some d =>
    unfold idFromDestIDField specIDFieldCand specRecordObj specFieldVal
    cases d <;> try rfl
    case ptrV o =>
      cases o <;> try rfl
      case some v =>
        cases v <;> try rfl
        case structV fields =>
          cases hf : fields.find? (fun f => decide (f.1 = "ID")) <;>
            simp [hf, posNum_some, posNum_none]
    case structV fields =>
      cases hf : fields.find? (fun f => decide (f.1 = "ID")) <;>
        simp [hf, posNum_some, posNum_none]

theorem modelMapOf_append (fs : List (String × Bool × GoV))
    (f : String × Bool × GoV) :
    modelMapOf (fs ++ [f]) =
      (match fieldEntry f with
       | none => modelMapOf fs
       | some (k, v) => mapInsert (modelMapOf fs) k v) := by
  simp [modelMapOf, List.foldl_append]

theorem mem_mapInsert (p : String × GoV) (m : List (String × GoV))
    (k : String) (v : GoV) (hp : p ∈ mapInsert m k v) :
    p = (k, v) ∨ p ∈ m := by
  unfold mapInsert at hp
  split at hp
  · rw [List.mem_map] at hp
    obtain ⟨q, hq, he⟩ := hp
    by_cases hqk : q.1 = k
    · simp [hqk] at he
      exact Or.inl he.symm
    · simp [hqk] at he
      exact Or.inr (he ▸ hq)
  · rcases List.mem_append.mp hp with h | h
    · exact Or.inr h
    · simp at h
      exact Or.inl h

theorem fieldEntry_some_inv (f : String × Bool × GoV) (k : String) (w : GoV)
    (h : fieldEntry f = some (k, w)) :
    k = f.1 ∧ f.2.1 = true ∧ f.1 ≠ "Password" ∧ f.1 ≠ "DeletedAt"
      ∧ w = derefField f.2.2 := by
  unfold fieldEntry at h
  split_ifs at h with h1 h2 h3
  rw [Option.some.injEq, Prod.mk.injEq] at h
  exact ⟨h.1.symm, by simpa [Bool.not_eq_false] using h1, h2, h3, h.2.symm⟩

theorem modelMapOf_excl (fs : List (String × Bool × GoV)) :
    ∀ p ∈ modelMapOf fs, p.1 ≠ "Password" ∧ p.1 ≠ "DeletedAt"
      ∧ ∃ f ∈ fs, f.1 = p.1 ∧ f.2.1 = true := by
  induction fs using List.reverseRecOn with
  | nil => intro p hp; simp [modelMapOf] at hp
  | append_singleton fs f ih =>
    intro p hp
    rw [modelMapOf_append] at hp
    cases hfe : fieldEntry f with
    | none =>
      rw [hfe] at hp
      obtain ⟨h1, h2, g, hg, hgp⟩ := ih p hp
      exact ⟨h1, h2, g, List.mem_append_left _ hg, hgp⟩
    | some kv =>
      rw [hfe] at hp
      rcases mem_mapInsert p (modelMapOf fs) kv.1 kv.2 hp with he | hm
      · obtain ⟨hk, hex, hnp, hnd, _⟩ := fieldEntry_some_inv f kv.1 kv.2 (by rw [hfe])
        refine ⟨?_, ?_, f, List.mem_append_right _ (List.mem_singleton.mpr rfl), ?_, hex⟩
        · rw [he]; simpa [hk] using hnp
        · rw [he]; simpa [hk] using hnd
        · rw [he]; exact hk.symm
      · obtain ⟨h1, h2, g, hg, hgp⟩ := ih p hm
        exact ⟨h1, h2, g, List.mem_append_left _ hg, hgp⟩

theorem auditBeforeUpdate_db_cases (db : DB) (s : Store) :
    (auditBeforeUpdate db s).db = db
      ∨ (auditBeforeUpdate db s).db = stageOldValues db s := by
  unfold auditBeforeUpdate
  repeat' split
  all_goals first | exact Or.inl rfl | exact Or.inr rfl

theorem auditBeforeDelete_db_cases (db : DB) (s : Store) :
    (auditBeforeDelete db s).db = db
      ∨ (auditBeforeDelete db s).db = stageOldValues db s := by
  unfold auditBeforeDelete
  repeat' split
  all_goals first | exact Or.inl rfl | exact Or.inr rfl

theorem auditBeforeUpdate_db_fail (db : DB) (s : Store)
    (h : s.first (getRecordID db.stmt) = none) :
    (auditBeforeUpdate db s).db = db := by
  rcases auditBeforeUpdate_db_cases db s with hh | hh
  · exact hh
  · rw [hh, stageOldValues_fail db s h]

theorem auditBeforeDelete_db_fail (db : DB) (s : Store)
    (h : s.first (getRecordID db.stmt) = none) :
    (auditBeforeDelete db s).db = db := by
  rcases auditBeforeDelete_db_cases db s with hh | hh
  · exact hh
  · rw [hh, stageOldValues_fail db s h]

theorem auditUpdate_entryOld (db : DB) (s : Store) :
    entryOld (auditUpdate db s).entry = ""
      ∨ entryOld (auditUpdate db s).entry
          = (if stagedOld db.stmt = "" then fallbackOld s db.stmt
             else stagedOld db.stmt) := by
  unfold auditUpdate
  repeat' split
  all_goals first | exact Or.inl rfl | exact Or.inr rfl

theorem auditDelete_entryOld (db : DB) (s : Store) :
    entryOld (auditDelete db s).entry = ""
      ∨ entryOld (auditDelete db s).entry
          = (if stagedOld db.stmt = "" then fallbackOld s db.stmt
             else stagedOld db.stmt) := by
  unfold auditDelete
  repeat' split
  all_goals first | exact Or.inl rfl | exact Or.inr rfl

theorem stagedOld_none_ctx (st : Statement) (h : st.context = none) :
    stagedOld st = "" := by
  unfold stagedOld
  rw [h]

theorem fallbackOld_fail (s : Store) (st : Statement)
    (h : s.firstUnscoped (getRecordID st) = none) : fallbackOld s st = "" := by
  unfold fallbackOld
  split
  · rfl
  · rw [h]

theorem allHooks_zero_attrib (db : DB) (s : Store)
    (hu : getUserID db.stmt = 0) (hi : getIP db.stmt = "") :
    (allHookEntries db s).all
      (fun o => decide (entryUser o = 0) && decide (entryIP o = "")) = true := by
  have c1 : entryUser (auditCreate db s).entry = 0 := by
    rcases (auditCreate_user_ip db s).1 with h | h
    · exact h
    · rw [h, hu]
  have i1 : entryIP (auditCreate db s).entry = "" := by
    rcases (auditCreate_user_ip db s).2 with h | h
    · exact h
    · rw [h, hi]
  have c2 : entryUser (auditUpdate db s).entry = 0 := by
    rcases (auditUpdate_user_ip db s).1 with h | h
    · exact h
    · rw [h, hu]
  have i2 : entryIP (auditUpdate db s).entry = "" := by
    rcases (auditUpdate_user_ip db s).2 with h | h
    · exact h
    · rw [h, hi]
  have c3 : entryUser (auditDelete db s).entry = 0 := by
    rcases (auditDelete_user_ip db s).1 with h | h
    · exact h
    · rw [h, hu]
  have i3 : entryIP (auditDelete db s).entry = "" := by
    rcases (auditDelete_user_ip db s).2 with h | h
    · exact h
    · rw [h, hi]
  have b1 := auditBeforeUpdate_entry db s
  have b2 := auditBeforeDelete_entry db s
  simp only [allHookEntries, List.all_cons, List.all_nil, Bool.and_eq_true,
    decide_eq_true_eq, Bool.and_true]
  refine ⟨⟨c1, i1⟩, ⟨?_, ?_⟩, ⟨c2, i2⟩, ⟨?_, ?_⟩, c3, i3⟩
  · rw [b1]; exact rfl
  · rw [b1]; exact rfl
  · rw [b2]; exact rfl
  · rw [b2]; exact rfl

theorem getUserID_some_ctx (st : Statement) (c : Ctx) (h : st.context = some c) :
    getUserID st = (match ctxValue c CtxKey.auditUserIDKey with
      | some (CtxVal.uintV n) => n
      | some (CtxVal.uint64V n) => n
      | some (CtxVal.intV z) => if 0 < z then z.toNat else 0
      | _ => 0) := by
  unfold getUserID
  rw [h]

theorem getIP_some_ctx (st : Statement) (c : Ctx) (h : st.context = some c) :
    getIP st = (match ctxValue c CtxKey.auditIPKey with
      | some (CtxVal.strV s) => s
      | _ => "") := by
  unfold getIP
  rw [h]

theorem getUserID_none_ctx (st : Statement) (h : st.context = none) :
    getUserID st = 0 := by
  unfold getUserID
  rw [h]

theorem getIP_none_ctx (st : Statement) (h : st.context = none) :
    getIP st = "" := by
  unfold getIP
  rw [h]

/-! ## The claims -/

/-- C1, counterexample: an update statement whose target table (as
resolved by `getTableName`) is the audit table "audit_logs", but whose
parsed schema is absent (raw table name, id bound in `Vars`), makes the
after-update hook produce an audit entry — so it is not true that every
audit hook returns without producing anything whenever the statement's
target table is "audit_logs". -/
theorem C1_counterexample :
    getTableName rawAuditStmt = "audit_logs"
    ∧ (auditUpdate rawAuditDB emptyStore).entry
        = some ⟨"audit_logs", 5, "update", "", "", 0, ""⟩ := ⟨rfl, rfl⟩

/-- C1, amended claim: writes whose parsed schema targets the audit
collection never produce or stage anything: every audit hook returns with
the db state unchanged and no audit row whenever the statement's parsed
schema is present and its table is "audit_logs".  (A write that targets
"audit_logs" only through an explicitly set table name with no parsed
schema is not guarded; and in the three after-hooks this guard follows
the statement-error check, which also produces nothing.) -/
theorem C1_schema_guard (db : DB) (s : Store) (sch : Schema)
    (h1 : db.stmt.schema = some sch) (h2 : sch.table = "audit_logs") :
    auditCreate db s = ⟨db, none⟩ ∧ auditBeforeUpdate db s = ⟨db, none⟩
    ∧ auditUpdate db s = ⟨db, none⟩ ∧ auditBeforeDelete db s = ⟨db, none⟩
    ∧ auditDelete db s = ⟨db, none⟩ := by
  have hg : isAuditTarget db.stmt = true := by
    unfold isAuditTarget
    rw [h1]
    show (sch.table == "audit_logs") = true
    rw [h2]
    decide
  exact ⟨auditCreate_guard db s hg, auditBeforeUpdate_guard db s hg,
    auditUpdate_guard db s hg, auditBeforeDelete_guard db s hg,
    auditDelete_guard db s hg⟩

/-- Witness for `C1_schema_guard` at a concrete write whose schema table
is "audit_logs". -/
theorem C1_schema_guard_witness :
    auditCreate auditSelfDB emptyStore = ⟨auditSelfDB, none⟩
    ∧ auditBeforeUpdate auditSelfDB emptyStore = ⟨auditSelfDB, none⟩
    ∧ auditUpdate auditSelfDB emptyStore = ⟨auditSelfDB, none⟩
    ∧ auditBeforeDelete auditSelfDB emptyStore = ⟨auditSelfDB, none⟩
    ∧ auditDelete auditSelfDB emptyStore = ⟨auditSelfDB, none⟩ :=
  C1_schema_guard auditSelfDB emptyStore ⟨"audit_logs", some "ID"⟩ rfl rfl

/-- C2: no error from inside the recorder reaches the caller: every hook
preserves `db.Error`; the hooks' results are unchanged when the error of
the audit-log insert changes (that error is discarded); serialization of
a non-struct degrades to the empty string; a failed prior-state lookup in
the before-hook leaves the db state (hence the staged prior state)
untouched, and when additionally the fallback reload fails the recorded
prior state is empty — so the business write's own outcome is unchanged
by auditing. -/
theorem C2_no_error_propagation (db db2 : DB) (s s2 : Store)
    (e e' : Option String) (tag : String)
    (h1 : s2.first (getRecordID db2.stmt) = none)
    (h2 : s2.firstUnscoped (getRecordID db2.stmt) = none)
    (h3 : db2.stmt.context = none) :
    ((auditCreate db s).db.error = db.error
      ∧ (auditBeforeUpdate db s).db.error = db.error
      ∧ (auditUpdate db s).db.error = db.error
      ∧ (auditBeforeDelete db s).db.error = db.error
      ∧ (auditDelete db s).db.error = db.error)
    ∧ (auditCreate db { s with auditInsertErr := e }
         = auditCreate db { s with auditInsertErr := e' }
      ∧ auditUpdate db { s with auditInsertErr := e }
         = auditUpdate db { s with auditInsertErr := e' }
      ∧ auditDelete db { s with auditInsertErr := e }
         = auditDelete db { s with auditInsertErr := e' })
    ∧ serializeModel (some (.otherV tag)) = ""
    ∧ (auditBeforeUpdate db2 s2).db = db2
    ∧ (auditBeforeDelete db2 s2).db = db2
    ∧ entryOld (auditUpdate db2 s2).entry = ""
    ∧ entryOld (auditDelete db2 s2).entry = "" := by
  have hst : stagedOld db2.stmt = "" := stagedOld_none_ctx db2.stmt h3
  have hfb : fallbackOld s2 db2.stmt = "" := fallbackOld_fail s2 db2.stmt h2
  refine ⟨⟨?_, ?_, ?_, ?_, ?_⟩, ⟨?_, ?_, ?_⟩, rfl, ?_, ?_, ?_, ?_⟩
  · rw [auditCreate_db_eq]
  · exact auditBeforeUpdate_error db s
  · rw [auditUpdate_db_eq]
  · exact auditBeforeDelete_error db s
  · rw [auditDelete_db_eq]
  · exact auditCreate_store_irrel db _ _
  · exact auditUpdate_store_irrel db s.first s.first s.firstUnscoped e e'
  · exact auditDelete_store_irrel db s.first s.first s.firstUnscoped e e'
  · exact auditBeforeUpdate_db_fail db2 s2 h1
  · exact auditBeforeDelete_db_fail db2 s2 h1
  · rcases auditUpdate_entryOld db2 s2 with h | h
    · exact h
    · rw [h, hst, if_pos rfl, hfb]
  · rcases auditDelete_entryOld db2 s2 with h | h
    · exact h
    · rw [h, hst, if_pos rfl, hfb]

/-- Witness for `C2_no_error_propagation` at a concrete business write and
a store whose reads fail and whose audit insert errors out. -/
theorem C2_no_error_propagation_witness :
    ((auditCreate userDB emptyStore).db.error = userDB.error
      ∧ (auditBeforeUpdate userDB emptyStore).db.error = userDB.error
      ∧ (auditUpdate userDB emptyStore).db.error = userDB.error
      ∧ (auditBeforeDelete userDB emptyStore).db.error = userDB.error
      ∧ (auditDelete userDB emptyStore).db.error = userDB.error)
    ∧ (auditCreate userDB { emptyStore with auditInsertErr := some "closed" }
         = auditCreate userDB { emptyStore with auditInsertErr := none }
      ∧ auditUpdate userDB { emptyStore with auditInsertErr := some "closed" }
         = auditUpdate userDB { emptyStore with auditInsertErr := none }
      ∧ auditDelete userDB { emptyStore with auditInsertErr := some "closed" }
         = auditDelete userDB { emptyStore with auditInsertErr := none })
    ∧ serializeModel (some (.otherV "chanValue")) = ""
    ∧ (auditBeforeUpdate userDB emptyStore).db = userDB
    ∧ (auditBeforeDelete userDB emptyStore).db = userDB
    ∧ entryOld (auditUpdate userDB emptyStore).entry = ""
    ∧ entryOld (auditDelete userDB emptyStore).entry = "" :=
  C2_no_error_propagation userDB userDB emptyStore emptyStore
    (some "closed") none "chanValue" rfl rfl rfl

/-- C3: a successful create (no statement error, non-audit schema target,
resolvable table name, resolvable positive record id) produces exactly one
audit row: action "create", empty prior state, and new state the
serialization of the post-insert `Dest`. -/
theorem C3_create_entry (db : DB) (s : Store)
    (h1 : db.error = none) (h2 : isAuditTarget db.stmt = false)
    (h3 : getTableName db.stmt ≠ "") (h4 : getRecordID db.stmt ≠ 0) :
    (auditCreate db s).entry
      = some ⟨getTableName db.stmt, getRecordID db.stmt, "create", "",
              serializeModel db.stmt.dest, getUserID db.stmt, getIP db.stmt⟩ := by
  rw [auditCreate_success db s h1 h2 h3 h4]

/-- Witness for `C3_create_entry` at the concrete create of `userRec`. -/
theorem C3_create_entry_witness :
    (auditCreate userDB emptyStore).entry
      = some ⟨getTableName userDB.stmt, getRecordID userDB.stmt, "create", "",
              serializeModel userDB.stmt.dest,
              getUserID userDB.stmt, getIP userDB.stmt⟩ :=
  C3_create_entry userDB emptyStore rfl rfl (by decide) (by decide)

/-- C8: a write whose target is unresolvable — empty resolved table name
or non-positive resolved record id — makes every hook a no-op: no audit
row, db state returned unchanged (so the business write's outcome is
unaffected). -/
theorem C8_unresolvable_skip (db : DB) (s : Store)
    (h : getTableName db.stmt = "" ∨ getRecordID db.stmt = 0) :
    auditCreate db s = ⟨db, none⟩ ∧ auditBeforeUpdate db s = ⟨db, none⟩
    ∧ auditUpdate db s = ⟨db, none⟩ ∧ auditBeforeDelete db s = ⟨db, none⟩
    ∧ auditDelete db s = ⟨db, none⟩ :=
  ⟨auditCreate_skip db s h, auditBeforeUpdate_skip db s h,
   auditUpdate_skip db s h, auditBeforeDelete_skip db s h,
   auditDelete_skip db s h⟩

/-- C4: composing the before-delete and after-delete hooks on a successful
delete (no statement error, non-audit schema, resolvable table and id)
whose pre-delete load returned the record `rec` produces exactly one audit
row with action "delete", empty new state, and prior state the
serialization of `rec` as loaded strictly before the delete executed (the
after-hook runs against a possibly different store `sa`, which it does not
consult for the prior state). -/
theorem C4_delete_prior_state (st : Statement) (sb sa : Store) (sch : Schema)
    (rec : GoV)
    (h1 : st.schema = some sch) (h2 : sch.table ≠ "audit_logs")
    (h3 : getTableName st ≠ "") (h4 : getRecordID st ≠ 0)
    (h5 : sb.first (getRecordID st) = some rec) (h6 : isStructGo rec = true) :
    (auditDelete (auditBeforeDelete ⟨st, none⟩ sb).db sa).entry
      = some ⟨getTableName st, getRecordID st, "delete",
              serializeModel (some (.ptrV (some rec))), "",
              getUserID st, getIP st⟩ := by
  have hga : isAuditTarget st = false := by
    unfold isAuditTarget
    rw [h1]
    show (sch.table == "audit_logs") = false
    simpa using h2
  have hbd : auditBeforeDelete ⟨st, none⟩ sb
      = ⟨stageOldValues ⟨st, none⟩ sb, none⟩ :=
    auditBeforeDelete_success ⟨st, none⟩ sb hga h3 h4
  rw [hbd, stageOldValues_some ⟨st, none⟩ sb sch rec h1 h5]
  show (auditDelete ⟨{ st with context := some ((CtxKey.auditOldValuesKey,
    CtxVal.strV (serializeModel (some (.ptrV (some rec)))))
      :: (st.context.getD [])) }, none⟩ sa).entry = _
  have hga2 : isAuditTarget ({ st with context := some ((CtxKey.auditOldValuesKey,
      CtxVal.strV (serializeModel (some (.ptrV (some rec)))))
        :: (st.context.getD [])) } : Statement) = false := by
    rw [isAuditTarget_ctx]; exact hga
  have ht2 : getTableName ({ st with context := some ((CtxKey.auditOldValuesKey,
      CtxVal.strV (serializeModel (some (.ptrV (some rec)))))
        :: (st.context.getD [])) } : Statement) ≠ "" := by
    rw [getTableName_ctx]; exact h3
  have hr2 : getRecordID ({ st with context := some ((CtxKey.auditOldValuesKey,
      CtxVal.strV (serializeModel (some (.ptrV (some rec)))))
        :: (st.context.getD [])) } : Statement) ≠ 0 := by
    rw [getRecordID_ctx]; exact h4
  rw [auditDelete_success _ sa rfl hga2 ht2 hr2]
  simp only [getTableName_ctx, getRecordID_ctx, getUserID_staged, getIP_staged,
    stagedOld_staged]
  rw [if_neg (serializeModel_struct_ne rec h6)]

/-- Witness for `C4_delete_prior_state` at the concrete delete of
`userRec` (id 7), loaded by the before-hook from `userStore`. -/
theorem C4_delete_prior_state_witness :
    (auditDelete (auditBeforeDelete ⟨userStmt, none⟩ userStore).db
        emptyStore).entry
      = some ⟨getTableName userStmt, getRecordID userStmt, "delete",
              serializeModel (some (.ptrV (some userRec))), "",
              getUserID userStmt, getIP userStmt⟩ :=
  C4_delete_prior_state userStmt userStore emptyStore usersSchema userRec
    rfl (by decide) (by decide) (by decide) rfl rfl

/-- C5: on a successful update (no statement error, non-audit schema,
resolvable table and id) the after-update hook produces exactly one audit
row whose prior state is the staged context value when one is present and
non-empty, and otherwise the serialization of a single best-effort
unscoped reload (`fallbackOld`); when the staged value is non-empty the
hook's result does not depend on the store at all; a failed before-update
load stages nothing (db state unchanged); and when no prior state was
staged and the unscoped reload also fails, the recorded prior state is
empty. -/
theorem C5_update_prior_state (db : DB) (store store2 : Store)
    (h1 : db.error = none) (h2 : isAuditTarget db.stmt = false)
    (h3 : getTableName db.stmt ≠ "") (h4 : getRecordID db.stmt ≠ 0) :
    ((auditUpdate db store).entry).isSome = true
    ∧ entryOld (auditUpdate db store).entry
        = (if stagedOld db.stmt = "" then fallbackOld store db.stmt
           else stagedOld db.stmt)
    ∧ (stagedOld db.stmt ≠ "" → auditUpdate db store = auditUpdate db store2)
    ∧ (store.first (getRecordID db.stmt) = none →
        (auditBeforeUpdate db store).db = db)
    ∧ (stagedOld db.stmt = "" →
        store.firstUnscoped (getRecordID db.stmt) = none →
        entryOld (auditUpdate db store).entry = "") := by
  have hs := auditUpdate_success db store h1 h2 h3 h4
  refine ⟨?_, ?_, ?_, ?_, ?_⟩
  · rw [hs]; rfl
  · rw [hs]; rfl
  · intro hne
    rw [hs, auditUpdate_success db store2 h1 h2 h3 h4,
      if_neg hne, if_neg hne]
  · exact auditBeforeUpdate_db_fail db store
  · intro he hu
    rw [hs]
    show (if stagedOld db.stmt = "" then fallbackOld store db.stmt
          else stagedOld db.stmt) = ""
    rw [if_pos he, fallbackOld_fail store db.stmt hu]

/-- Witness for `C5_update_prior_state` at the concrete update of
`userRec` with staged prior state "PRIOR". -/
theorem C5_update_prior_state_witness :
    ((auditUpdate stagedDB emptyStore).entry).isSome = true
    ∧ entryOld (auditUpdate stagedDB emptyStore).entry
        = (if stagedOld stagedDB.stmt = "" then fallbackOld emptyStore stagedDB.stmt
           else stagedOld stagedDB.stmt)
    ∧ (stagedOld stagedDB.stmt ≠ "" →
        auditUpdate stagedDB emptyStore = auditUpdate stagedDB userStore)
    ∧ (emptyStore.first (getRecordID stagedDB.stmt) = none →
        (auditBeforeUpdate stagedDB emptyStore).db = stagedDB)
    ∧ (stagedOld stagedDB.stmt = "" →
        emptyStore.firstUnscoped (getRecordID stagedDB.stmt) = none →
        entryOld (auditUpdate stagedDB emptyStore).entry = "") :=
  C5_update_prior_state stagedDB emptyStore userStore rfl rfl
    (by decide) (by decide)

/-- C6: `getRecordID` resolves the record id in the spec's priority order,
first positive match winning: schema primary-key field off the record
object, then a positive numeric bound variable, then a field literally
named "ID" off the record object; and when the result is 0 none of the
five hooks produces an audit row. -/
theorem C6_record_id_priority (st : Statement) (db : DB) (s : Store)
    (hdb : db.stmt = st) :
    getRecordID st
      = (if 0 < specPrimaryCand st then specPrimaryCand st
         else if 0 < specVarsCand st then specVarsCand st
         else specIDFieldCand st)
    ∧ (getRecordID st = 0 →
        (auditCreate db s).entry = none ∧ (auditBeforeUpdate db s).entry = none
        ∧ (auditUpdate db s).entry = none
        ∧ (auditBeforeDelete db s).entry = none
        ∧ (auditDelete db s).entry = none) := by
  constructor
  · unfold getRecordID specVarsCand
    rw [pkFromDest_eq, idFromVars_eq, idFromDestIDField_eq]
  · intro h0
    have hskip : getTableName db.stmt = "" ∨ getRecordID db.stmt = 0 :=
      Or.inr (by rw [hdb]; exact h0)
    exact ⟨by rw [auditCreate_skip db s hskip],
      by rw [auditBeforeUpdate_skip db s hskip],
      by rw [auditUpdate_skip db s hskip],
      by rw [auditBeforeDelete_skip db s hskip],
      by rw [auditDelete_skip db s hskip]⟩

/-- Witness for `C6_record_id_priority` at a concrete statement with an
unresolvable record id. -/
theorem C6_record_id_priority_witness :
    getRecordID noIDStmt
      = (if 0 < specPrimaryCand noIDStmt then specPrimaryCand noIDStmt
         else if 0 < specVarsCand noIDStmt then specVarsCand noIDStmt
         else specIDFieldCand noIDStmt)
    ∧ (getRecordID noIDStmt = 0 →
        (auditCreate noIDDB emptyStore).entry = none
        ∧ (auditBeforeUpdate noIDDB emptyStore).entry = none
        ∧ (auditUpdate noIDDB emptyStore).entry = none
        ∧ (auditBeforeDelete noIDDB emptyStore).entry = none
        ∧ (auditDelete noIDDB emptyStore).entry = none) :=
  C6_record_id_priority noIDStmt noIDDB emptyStore rfl

/-- C7: field-state serialization maps a single record to its filtered
field map encoded as a JSON object string and a collection of records to
the encoded sequence of such maps; every key of the map comes from an
exported field and is never "Password" or "DeletedAt"; appending a field
to a record extends the map exactly when the field is exported and not
excluded; and pointer field values are stored dereferenced, with nil
pointers encoding to null. -/
theorem C7_serialization_policy (fs : List (String × Bool × GoV))
    (xs : List GoV) (k : String) (ex : Bool) (v w : GoV) :
    serializeModel (some (.structV fs)) = encMap (modelMapOf fs)
    ∧ serializeModel (some (.ptrV (some (.structV fs)))) = encMap (modelMapOf fs)
    ∧ serializeModel (some (.sliceV xs))
        = (if (xs.filterMap modelMapTry).isEmpty then "null"
           else encMapList (xs.filterMap modelMapTry))
    ∧ (∀ p ∈ modelMapOf fs, p.1 ≠ "Password" ∧ p.1 ≠ "DeletedAt"
        ∧ ∃ f ∈ fs, f.1 = p.1 ∧ f.2.1 = true)
    ∧ modelMapOf (fs ++ [(k, ex, v)])
        = (if ex = true ∧ k ≠ "Password" ∧ k ≠ "DeletedAt"
           then mapInsert (modelMapOf fs) k (derefField v)
           else modelMapOf fs)
    ∧ derefField (.ptrV (some w)) = w
    ∧ derefField (.ptrV none) = .ptrV none
    ∧ encGoV (.ptrV none) = "null" := by
  refine ⟨rfl, rfl, rfl, modelMapOf_excl fs, ?_, rfl, rfl, rfl⟩
  rw [modelMapOf_append]
  cases ex
  · simp [fieldEntry]
  · by_cases hp : k = "Password"
    · simp [fieldEntry, hp]
    · by_cases hd : k = "DeletedAt"
      · simp [fieldEntry, hp, hd]
      · simp [fieldEntry, hp, hd]

/-- Witness for `C7_serialization_policy` at the concrete `userRec`
fields. -/
theorem C7_serialization_policy_witness :
    serializeModel (some (.structV
      [("ID", true, .uintV 7), ("Name", true, .strV "A"),
       ("Password", true, .strV "secret"), ("DeletedAt", true, .otherV "null"),
       ("age", false, .intV 30), ("Nick", true, .ptrV none)]))
      = encMap (modelMapOf
      [("ID", true, .uintV 7), ("Name", true, .strV "A"),
       ("Password", true, .strV "secret"), ("DeletedAt", true, .otherV "null"),
       ("age", false, .intV 30), ("Nick", true, .ptrV none)])
    ∧ serializeModel (some (.ptrV (some (.structV
      [("ID", true, .uintV 7), ("Name", true, .strV "A"),
       ("Password", true, .strV "secret"), ("DeletedAt", true, .otherV "null"),
       ("age", false, .intV 30), ("Nick", true, .ptrV none)]))))
      = encMap (modelMapOf
      [("ID", true, .uintV 7), ("Name", true, .strV "A"),
       ("Password", true, .strV "secret"), ("DeletedAt", true, .otherV "null"),
       ("age", false, .intV 30), ("Nick", true, .ptrV none)])
    ∧ serializeModel (some (.sliceV [userRec]))
        = (if ([userRec].filterMap modelMapTry).isEmpty then "null"
           else encMapList ([userRec].filterMap modelMapTry))
    ∧ (∀ p ∈ modelMapOf
      [("ID", true, .uintV 7), ("Name", true, .strV "A"),
       ("Password", true, .strV "secret"), ("DeletedAt", true, .otherV "null"),
       ("age", false, .intV 30), ("Nick", true, .ptrV none)],
        p.1 ≠ "Password" ∧ p.1 ≠ "DeletedAt"
        ∧ ∃ f ∈ [("ID", true, GoV.uintV 7), ("Name", true, GoV.strV "A"),
       ("Password", true, GoV.strV "secret"),
       ("DeletedAt", true, GoV.otherV "null"),
       ("age", false, GoV.intV 30), ("Nick", true, GoV.ptrV none)],
          f.1 = p.1 ∧ f.2.1 = true)
    ∧ modelMapOf (
      [("ID", true, .uintV 7), ("Name", true, .strV "A"),
       ("Password", true, .strV "secret"), ("DeletedAt", true, .otherV "null"),
       ("age", false, .intV 30), ("Nick", true, .ptrV none)]
        ++ [("Email", true, .ptrV (some (.strV "a@b.c")))])
        = (if true = true ∧ "Email" ≠ "Password" ∧ "Email" ≠ "DeletedAt"
           then mapInsert (modelMapOf
      [("ID", true, .uintV 7), ("Name", true, .strV "A"),
       ("Password", true, .strV "secret"), ("DeletedAt", true, .otherV "null"),
       ("age", false, .intV 30), ("Nick", true, .ptrV none)])
             "Email" (derefField (.ptrV (some (.strV "a@b.c"))))
           else modelMapOf
      [("ID", true, .uintV 7), ("Name", true, .strV "A"),
       ("Password", true, .strV "secret"), ("DeletedAt", true, .otherV "null"),
       ("age", false, .intV 30), ("Nick", true, .ptrV none)])
    ∧ derefField (.ptrV (some (.strV "a@b.c"))) = .strV "a@b.c"
    ∧ derefField (.ptrV none) = .ptrV none
    ∧ encGoV (.ptrV none) = "null" :=
  C7_serialization_policy
    [("ID", true, .uintV 7), ("Name", true, .strV "A"),
     ("Password", true, .strV "secret"), ("DeletedAt", true, .otherV "null"),
     ("age", false, .intV 30), ("Nick", true, .ptrV none)]
    [userRec] "Email" true (.ptrV (some (.strV "a@b.c"))) (.strV "a@b.c")

/-- Witness for `C8_unresolvable_skip` at a write with nil `Dest` and no
bound variables (record id resolves to 0). -/
theorem C8_unresolvable_skip_witness :
    auditCreate noIDDB emptyStore = ⟨noIDDB, none⟩
    ∧ auditBeforeUpdate noIDDB emptyStore = ⟨noIDDB, none⟩
    ∧ auditUpdate noIDDB emptyStore = ⟨noIDDB, none⟩
    ∧ auditBeforeDelete noIDDB emptyStore = ⟨noIDDB, none⟩
    ∧ auditDelete noIDDB emptyStore = ⟨noIDDB, none⟩ :=
  C8_unresolvable_skip noIDDB emptyStore (Or.inr (by decide))

/-- C9: the recorded user id and IP are read opportunistically from the
ambient context under the audit keys: a nil context, a context with no
such bindings, or a non-positive int user id all yield user id 0 and
empty IP, both at the reader functions and in every audit row any hook
produces on such a write. -/
theorem C9_context_attribution (c cNeg : Ctx) (z : Int) (db1 db2 db3 : DB)
    (s : Store)
    (h1 : db1.stmt.context = none)
    (h2 : db2.stmt.context = some c)
    (h2u : ctxValue c CtxKey.auditUserIDKey = none)
    (h2i : ctxValue c CtxKey.auditIPKey = none)
    (hz : z ≤ 0)
    (h3 : db3.stmt.context = some cNeg)
    (h3u : ctxValue cNeg CtxKey.auditUserIDKey = some (CtxVal.intV z))
    (h3i : ctxValue cNeg CtxKey.auditIPKey = none) :
    (getUserID db1.stmt = 0 ∧ getIP db1.stmt = ""
      ∧ getUserID db2.stmt = 0 ∧ getIP db2.stmt = ""
      ∧ getUserID db3.stmt = 0 ∧ getIP db3.stmt = "")
    ∧ (allHookEntries db1 s).all
        (fun o => decide (entryUser o = 0) && decide (entryIP o = "")) = true
    ∧ (allHookEntries db2 s).all
        (fun o => decide (entryUser o = 0) && decide (entryIP o = "")) = true
    ∧ (allHookEntries db3 s).all
        (fun o => decide (entryUser o = 0) && decide (entryIP o = "")) = true := by
  have g1 : getUserID db1.stmt = 0 := getUserID_none_ctx db1.stmt h1
  have p1 : getIP db1.stmt = "" := getIP_none_ctx db1.stmt h1
  have g2 : getUserID db2.stmt = 0 := by
    rw [getUserID_some_ctx db2.stmt c h2, h2u]
  have p2 : getIP db2.stmt = "" := by
    rw [getIP_some_ctx db2.stmt c h2, h2i]
  have g3 : getUserID db3.stmt = 0 := by
    rw [getUserID_some_ctx db3.stmt cNeg h3, h3u]
    show (if 0 < z then z.toNat else 0) = 0
    rw [if_neg (by omega)]
  have p3 : getIP db3.stmt = "" := by
    rw [getIP_some_ctx db3.stmt cNeg h3, h3i]
  exact ⟨⟨g1, p1, g2, p2, g3, p3⟩, allHooks_zero_attrib db1 s g1 p1,
    allHooks_zero_attrib db2 s g2 p2, allHooks_zero_attrib db3 s g3 p3⟩

/-- Witness for `C9_context_attribution` at concrete writes with nil
context, a context carrying no audit keys, and a context carrying int
user id -3. -/
theorem C9_context_attribution_witness :
    (getUserID userDB.stmt = 0 ∧ getIP userDB.stmt = ""
      ∧ getUserID noKeysDB.stmt = 0 ∧ getIP noKeysDB.stmt = ""
      ∧ getUserID negIntDB.stmt = 0 ∧ getIP negIntDB.stmt = "")
    ∧ (allHookEntries userDB emptyStore).all
        (fun o => decide (entryUser o = 0) && decide (entryIP o = "")) = true
    ∧ (allHookEntries noKeysDB emptyStore).all
        (fun o => decide (entryUser o = 0) && decide (entryIP o = "")) = true
    ∧ (allHookEntries negIntDB emptyStore).all
        (fun o => decide (entryUser o = 0) && decide (entryIP o = "")) = true :=
  C9_context_attribution noKeysCtx negIntCtx (-3) userDB noKeysDB negIntDB
    emptyStore rfl rfl rfl rfl (by decide) rfl rfl rfl

/-- C10: `SetAuditContext` is the identity on its db argument — it
attaches nothing to any context — so a write whose context lacks the
audit keys records user id 0 and empty IP in every audit row any hook
produces. -/
theorem C10_set_audit_context_identity (db : DB) (u : Nat) (ip : String)
    (db2 : DB) (s : Store) (c : Ctx)
    (h1 : db2.stmt.context = some c)
    (h2 : ctxValue c CtxKey.auditUserIDKey = none)
    (h3 : ctxValue c CtxKey.auditIPKey = none) :
    SetAuditContext db u ip = db
    ∧ (SetAuditContext db u ip).stmt.context = db.stmt.context
    ∧ (allHookEntries db2 s).all
        (fun o => decide (entryUser o = 0) && decide (entryIP o = "")) = true := by
  have g : getUserID db2.stmt = 0 := by
    rw [getUserID_some_ctx db2.stmt c h1, h2]
  have p : getIP db2.stmt = "" := by
    rw [getIP_some_ctx db2.stmt c h1, h3]
  exact ⟨rfl, rfl, allHooks_zero_attrib db2 s g p⟩

/-- Witness for `C10_set_audit_context_identity` at a concrete db handle
and a write whose context carries no audit keys. -/
theorem C10_set_audit_context_identity_witness :
    SetAuditContext userDB 42 "10.0.0.1" = userDB
    ∧ (SetAuditContext userDB 42 "10.0.0.1").stmt.context = userDB.stmt.context
    ∧ (allHookEntries noKeysDB emptyStore).all
        (fun o => decide (entryUser o = 0) && decide (entryIP o = "")) = true :=
  C10_set_audit_context_identity userDB 42 "10.0.0.1" noKeysDB emptyStore
    noKeysCtx rfl rfl rfl

end GoWeb
